import Mathlib

/-!
Verification of the meme-generator renderer and caption-fetch collaborator
(`app.py`), shallowly embedded in Lean 4.

The renderer `draw_text_on_image(image, top_text, bottom_text)` is embedded
as a pure state transformer on an image together with a trace of the
`draw.text` calls it issues.  Pillow primitives used by the code
(`ImageFont.truetype`, `ImageFont.load_default`, `draw.textbbox`,
`draw.text`) are modelled abstractly: a `Font` carries a bounding-box
measure and, for each string, the set of pixel offsets that receive ink
when the string is drawn; a `FontEnv` says whether `truetype` succeeds.
Python's in-place mutation of the `PIL.Image` object is modelled by an
explicit reference heap.
-/

/-- An RGB color, as Pillow stores pixels of an RGB image. -/
abbrev Color := Nat × Nat × Nat

def black : Color := (0, 0, 0)

def white : Color := (255, 255, 255)

/-- A raster bitmap: `width`, `height` and pixel data.  Coordinates are
integers; only `0 ≤ p < width`, `0 ≤ q < height` is meaningful. -/
structure Image where
  width : Nat
  height : Nat
  pixel : Int → Int → Color

/-- The four components returned by Pillow's `draw.textbbox((0,0), text, font)`. -/
structure BBox where
  left : Int
  top : Int
  right : Int
  bottom : Int
deriving DecidableEq

/-- Abstract model of a Pillow font object: `bbox t` is
`draw.textbbox((0,0), t, font)`, and `ink t` is the set of pixel offsets
(relative to the draw anchor) that receive ink when `t` is drawn. -/
structure Font where
  bbox : String → BBox
  ink : String → List (Int × Int)

/-- Environment of available fonts: `truetype name size` models
`ImageFont.truetype(name, size)`, returning `none` when it raises
`IOError`; `load_default` models `ImageFont.load_default()`. -/
structure FontEnv where
  truetype : String → Nat → Option Font
  load_default : Font

/-- One `draw.text((x, y), text, font=font, fill=fill)` call.  Coordinates
are rationals because the source computes `x = (width - text_width) / 2`
with Python float division. -/
structure DrawCall where
  text : String
  x : Rat
  y : Rat
  fill : Color
deriving DecidableEq

/-- Renderer state: the bitmap being drawn on plus the trace of
`draw.text` calls issued so far. -/
structure DrawState where
  img : Image
  calls : List DrawCall

/-- Embedding of Python's `str.upper()` (ASCII behaviour, as exercised by
the code). -/
def pyUpper (s : String) : String :=
  String.mk (s.data.map Char.toUpper)

/-- Embedding of one `draw.text((x, y), t, font=font, fill=c)` call:
pixels inside the image bounds that lie on the glyph run's ink are set to
the fill color (Pillow clips to the bitmap), and the call is appended to
the trace. -/
def drawText (font : Font) (t : String) (x y : Rat) (c : Color) (st : DrawState) : DrawState :=
  { img :=
      { st.img with
        pixel := fun p q =>
          if 0 ≤ p ∧ p < (st.img.width : Int) ∧ 0 ≤ q ∧ q < (st.img.height : Int) ∧
              (p - Rat.floor x, q - Rat.floor y) ∈ font.ink t
          then c
          else st.img.pixel p q }
    calls := st.calls ++ [⟨t, x, y, c⟩] }

/-- Embedding of the nested helper `draw_text_with_outline(text, x, y)`
(app.py lines 61-68): four black outline draws at `(x±2, y±2)`, then the
white fill draw at `(x, y)`. -/
def draw_text_with_outline (font : Font) (t : String) (x y : Rat) (st : DrawState) : DrawState :=
  let st := drawText font t (x - 2) (y - 2) black st
  let st := drawText font t (x + 2) (y - 2) black st
  let st := drawText font t (x - 2) (y + 2) black st
  let st := drawText font t (x + 2) (y + 2) black st
  drawText font t x y white st

/-- Body of `draw_text_on_image` after the font has been resolved
(app.py lines 48-90): the top slot is drawn when `top_text` is truthy
(non-empty), upper-cased, centered at `x = (width - text_width) / 2`,
`y = 10`; the bottom slot likewise with
`y = height - bottom_text_height - 10`. -/
def drawWithFont (font : Font) (image : Image) (top_text bottom_text : String) : DrawState :=
  let width := image.width
  let height := image.height
  let st : DrawState := ⟨image, []⟩
  let st :=
    if top_text ≠ "" then
      let t := pyUpper top_text
      let bb := font.bbox t
      let tw := bb.right - bb.left
      let x : Rat := ((width : Rat) - (tw : Rat)) / 2
      let y : Rat := 10
      draw_text_with_outline font t x y st
    else st
  if bottom_text ≠ "" then
    let t := pyUpper bottom_text
    let bb := font.bbox t
    let tw := bb.right - bb.left
    let th := bb.bottom - bb.top
    let x : Rat := ((width : Rat) - (tw : Rat)) / 2
    let y : Rat := (height : Rat) - (th : Rat) - 10
    draw_text_with_outline font t x y st
  else st

/-- Embedding of the `try: font = ImageFont.truetype("impact.ttf",
font_size) except IOError: font = ImageFont.load_default()` step
(app.py lines 53-58). -/
def resolve_font (env : FontEnv) (font_size : Nat) : Font :=
  match env.truetype "impact.ttf" font_size with
  | some f => f
  | none => env.load_default

/-- Embedding of `draw_text_on_image` (app.py lines 36-90); the font size
is `int(width / 10)`. -/
def draw_text_on_image (env : FontEnv) (image : Image) (top_text bottom_text : String) :
    DrawState :=
  drawWithFont (resolve_font env (image.width / 10)) image top_text bottom_text

/-! ### Basic structural lemmas -/

theorem drawText_width (font : Font) (t : String) (x y : Rat) (c : Color) (st : DrawState) :
    (drawText font t x y c st).img.width = st.img.width := rfl

theorem drawText_height (font : Font) (t : String) (x y : Rat) (c : Color) (st : DrawState) :
    (drawText font t x y c st).img.height = st.img.height := rfl

theorem outline_width (font : Font) (t : String) (x y : Rat) (st : DrawState) :
    (draw_text_with_outline font t x y st).img.width = st.img.width := rfl

theorem outline_height (font : Font) (t : String) (x y : Rat) (st : DrawState) :
    (draw_text_with_outline font t x y st).img.height = st.img.height := rfl

theorem drawWithFont_width (font : Font) (image : Image) (t b : String) :
    (drawWithFont font image t b).img.width = image.width := by
  unfold drawWithFont
  by_cases ht : t = "" <;> by_cases hb : b = "" <;>
    simp [ht, hb, outline_width]

theorem drawWithFont_height (font : Font) (image : Image) (t b : String) :
    (drawWithFont font image t b).img.height = image.height := by
  unfold drawWithFont
  by_cases ht : t = "" <;> by_cases hb : b = "" <;>
    simp [ht, hb, outline_height]

/-- C1: for every font environment, input image and pair of caption
strings, the bitmap returned by `draw_text_on_image` has the same width
and height as the input image. -/
theorem C1_dimensions_preserved (env : FontEnv) (image : Image) (top_text bottom_text : String) :
    (draw_text_on_image env image top_text bottom_text).img.width = image.width ∧
    (draw_text_on_image env image top_text bottom_text).img.height = image.height :=
  ⟨drawWithFont_width _ _ _ _, drawWithFont_height _ _ _ _⟩

/-- C2: calling the renderer with both caption strings empty returns a
bitmap with the input's dimensions that is pixel-for-pixel equal to the
input image. -/
theorem C2_empty_texts_identity (env : FontEnv) (image : Image) :
    (draw_text_on_image env image "" "").img.width = image.width ∧
    (draw_text_on_image env image "" "").img.height = image.height ∧
    ∀ p q : Int, (draw_text_on_image env image "" "").img.pixel p q = image.pixel p q := by
  refine ⟨rfl, rfl, fun p q => rfl⟩

/-! ### Layout quantities, as the spec describes them -/

/-- Measured text width: `bbox[2] - bbox[0]`. -/
def text_width (font : Font) (t : String) : Int :=
  (font.bbox t).right - (font.bbox t).left

/-- Measured text height: `bbox[3] - bbox[1]`. -/
def text_height (font : Font) (t : String) : Int :=
  (font.bbox t).bottom - (font.bbox t).top

/-- Horizontal centering offset `x = (width - textWidth) / 2`. -/
def center_x (font : Font) (width : Nat) (t : String) : Rat :=
  ((width : Rat) - (text_width font t : Rat)) / 2

/-- Bottom-caption anchor `y = height - textHeight - 10`. -/
def bottom_y (font : Font) (height : Nat) (t : String) : Rat :=
  (height : Rat) - (text_height font t : Rat) - 10

/-- The outline-then-fill call sequence described by the spec: the glyph
run four times in solid black at offsets `(x-2, y-2)`, `(x+2, y-2)`,
`(x-2, y+2)`, `(x+2, y+2)`, then once in solid white at `(x, y)`. -/
def outline_fill_calls (t : String) (x y : Rat) : List DrawCall :=
  [⟨t, x - 2, y - 2, black⟩, ⟨t, x + 2, y - 2, black⟩,
   ⟨t, x - 2, y + 2, black⟩, ⟨t, x + 2, y + 2, black⟩,
   ⟨t, x, y, white⟩]

theorem outline_calls_eq (font : Font) (t : String) (x y : Rat) (st : DrawState) :
    (draw_text_with_outline font t x y st).calls = st.calls ++ outline_fill_calls t x y := by
  simp [draw_text_with_outline, drawText, outline_fill_calls]

/-- Full characterization of the trace of `draw.text` calls issued by
`drawWithFont`. -/
theorem drawWithFont_calls (font : Font) (image : Image) (t b : String) :
    (drawWithFont font image t b).calls =
      (if t = "" then []
       else outline_fill_calls (pyUpper t) (center_x font image.width (pyUpper t)) 10) ++
      (if b = "" then []
       else outline_fill_calls (pyUpper b) (center_x font image.width (pyUpper b))
         (bottom_y font image.height (pyUpper b))) := by
  unfold drawWithFont
  by_cases ht : t = "" <;> by_cases hb : b = "" <;>
    simp [ht, hb, outline_calls_eq, center_x, bottom_y, text_width, text_height]

/-! ### Concrete sample objects used to instantiate the theorems -/

/-- A concrete font model: a fixed-metric bounding box, and one inked
pixel at the anchor for any string containing a non-whitespace
character (whitespace-only glyph runs leave no ink, as in Pillow). -/
def sampleFont : Font where
  bbox := fun s => ⟨0, 0, 7 * (s.length : Int), 10⟩
  ink := fun s => if s.data.all Char.isWhitespace then [] else [(0, 0)]

/-- An environment in which `impact.ttf` loads successfully. -/
def sampleEnv : FontEnv where
  truetype := fun _ _ => some sampleFont
  load_default := sampleFont

/-- An environment in which loading `impact.ttf` raises `IOError`. -/
def noImpactEnv : FontEnv where
  truetype := fun _ _ => none
  load_default := sampleFont

/-- A concrete 40×40 uniform gray image. -/
def sampleImage : Image where
  width := 40
  height := 40
  pixel := fun _ _ => (100, 100, 100)

/-- The white fill call of the concrete sample render. -/
def sampleFill : DrawCall :=
  ⟨pyUpper "hi",
   center_x (resolve_font sampleEnv (sampleImage.width / 10)) sampleImage.width (pyUpper "hi"),
   10, white⟩

/-! ### C8, C4, C5, C6: properties of the draw-call trace -/

/-- C8: each caption is drawn with the outline-then-fill technique: the
trace of `draw.text` calls is exactly, for each non-empty slot, four
black draws at `(x±2, y±2)` followed by one white draw at `(x, y)`. -/
theorem C8_outline_then_fill (env : FontEnv) (image : Image) (t b : String) :
    (draw_text_on_image env image t b).calls =
      (if t = "" then []
       else outline_fill_calls (pyUpper t)
         (center_x (resolve_font env (image.width / 10)) image.width (pyUpper t)) 10) ++
      (if b = "" then []
       else outline_fill_calls (pyUpper b)
         (center_x (resolve_font env (image.width / 10)) image.width (pyUpper b))
         (bottom_y (resolve_font env (image.width / 10)) image.height (pyUpper b))) :=
  drawWithFont_calls (resolve_font env (image.width / 10)) image t b

/-- C4: every drawn glyph run is the upper-cased form of one of the two
caption strings, and each non-empty caption slot does contribute drawn
glyph runs in its upper-cased form. -/
theorem C4_uppercased (env : FontEnv) (image : Image) (t b : String) :
    (∀ c ∈ (draw_text_on_image env image t b).calls,
        c.text = pyUpper t ∨ c.text = pyUpper b) ∧
    (t ≠ "" → ∃ c ∈ (draw_text_on_image env image t b).calls, c.text = pyUpper t) ∧
    (b ≠ "" → ∃ c ∈ (draw_text_on_image env image t b).calls, c.text = pyUpper b) := by
  have hc := drawWithFont_calls (resolve_font env (image.width / 10)) image t b
  rw [draw_text_on_image, hc]
  refine ⟨?_, ?_, ?_⟩
  · intro c hmem
    rcases List.mem_append.1 hmem with h | h
    · by_cases ht : t = ""
      · simp [ht] at h
      · left
        simp [if_neg ht, outline_fill_calls] at h
        rcases h with h | h | h | h | h <;> simp_all
    · by_cases hb : b = ""
      · simp [hb] at h
      · right
        simp [if_neg hb, outline_fill_calls] at h
        rcases h with h | h | h | h | h <;> simp_all
  · intro ht
    refine ⟨⟨pyUpper t, center_x (resolve_font env (image.width / 10)) image.width (pyUpper t),
      10, white⟩, ?_, rfl⟩
    apply List.mem_append_left
    simp [if_neg ht, outline_fill_calls]
  · intro hb
    refine ⟨⟨pyUpper b, center_x (resolve_font env (image.width / 10)) image.width (pyUpper b),
      bottom_y (resolve_font env (image.width / 10)) image.height (pyUpper b), white⟩, ?_, rfl⟩
    apply List.mem_append_right
    simp [if_neg hb, outline_fill_calls]

/-- C4 witness at a concrete input: the sample fill call's glyph run is
one of the two upper-cased captions. -/
theorem C4_uppercased_witness :
    sampleFill.text = pyUpper "hi" ∨ sampleFill.text = pyUpper "" :=
  (C4_uppercased sampleEnv sampleImage "hi" "").1 sampleFill
    (by
      rw [draw_text_on_image, drawWithFont_calls]
      exact List.mem_append_left _ (by simp [outline_fill_calls, sampleFill]))

/-- C5: every white (fill) draw call places its glyph run at
`x = (width - textWidth) / 2`, so for text narrower than the image the
caption's horizontal midpoint coincides with the image's horizontal
midpoint (in particular it is within one pixel of it). -/
theorem C5_centering (env : FontEnv) (image : Image) (t b : String) :
    ∀ c ∈ (draw_text_on_image env image t b).calls, c.fill = white →
      (text_width (resolve_font env (image.width / 10)) c.text : Rat) < (image.width : Rat) →
      c.x = center_x (resolve_font env (image.width / 10)) image.width c.text ∧
      |c.x + (text_width (resolve_font env (image.width / 10)) c.text : Rat) / 2 -
        (image.width : Rat) / 2| ≤ 1 := by
  intro c hmem hfill _
  have hc := drawWithFont_calls (resolve_font env (image.width / 10)) image t b
  rw [draw_text_on_image, hc] at hmem
  have hkey : c.x = center_x (resolve_font env (image.width / 10)) image.width c.text := by
    rcases List.mem_append.1 hmem with h | h
    · by_cases ht : t = ""
      · simp [ht] at h
      · simp [if_neg ht, outline_fill_calls] at h
        rcases h with h | h | h | h | h <;> subst h <;>
          first
            | rfl
            | exact absurd hfill (by decide : ¬ black = white)
    · by_cases hb : b = ""
      · simp [hb] at h
      · simp [if_neg hb, outline_fill_calls] at h
        rcases h with h | h | h | h | h <;> subst h <;>
          first
            | rfl
            | exact absurd hfill (by decide : ¬ black = white)
  refine ⟨hkey, ?_⟩
  rw [hkey, center_x]
  have hz : ((image.width : Rat) - (text_width (resolve_font env (image.width / 10)) c.text : Rat)) / 2 +
      (text_width (resolve_font env (image.width / 10)) c.text : Rat) / 2 -
      (image.width : Rat) / 2 = 0 := by ring
  rw [hz]
  simp

/-- C5 witness at a concrete input. -/
theorem C5_centering_witness :
    sampleFill.x =
      center_x (resolve_font sampleEnv (sampleImage.width / 10)) sampleImage.width
        sampleFill.text ∧
    |sampleFill.x +
      (text_width (resolve_font sampleEnv (sampleImage.width / 10))
        sampleFill.text : Rat) / 2 - (sampleImage.width : Rat) / 2| ≤ 1 :=
  C5_centering sampleEnv sampleImage "hi" "" sampleFill
    (by
      rw [draw_text_on_image, drawWithFont_calls]
      exact List.mem_append_left _ (by simp [outline_fill_calls, sampleFill]))
    rfl
    (by
      have h14 : text_width (resolve_font sampleEnv (sampleImage.width / 10))
          sampleFill.text = 14 := by decide
      rw [h14]
      norm_num [sampleImage])

/-- C6: the white fill draw of a non-empty top caption is anchored at
`y = 10`, and that of a non-empty bottom caption at
`y = height - textHeight - 10`. -/
theorem C6_vertical_anchors (env : FontEnv) (image : Image) (t b : String) :
    (t ≠ "" →
      (⟨pyUpper t, center_x (resolve_font env (image.width / 10)) image.width (pyUpper t),
        10, white⟩ : DrawCall) ∈ (draw_text_on_image env image t b).calls) ∧
    (b ≠ "" →
      (⟨pyUpper b, center_x (resolve_font env (image.width / 10)) image.width (pyUpper b),
        bottom_y (resolve_font env (image.width / 10)) image.height (pyUpper b), white⟩ :
        DrawCall) ∈ (draw_text_on_image env image t b).calls) := by
  have hc := drawWithFont_calls (resolve_font env (image.width / 10)) image t b
  rw [draw_text_on_image, hc]
  constructor
  · intro ht
    apply List.mem_append_left
    simp [if_neg ht, outline_fill_calls]
  · intro hb
    apply List.mem_append_right
    simp [if_neg hb, outline_fill_calls]

/-- C6 witness at a concrete input. -/
theorem C6_vertical_anchors_witness :
    (⟨pyUpper "hi", center_x (resolve_font sampleEnv (sampleImage.width / 10))
        sampleImage.width (pyUpper "hi"), 10, white⟩ : DrawCall) ∈
      (draw_text_on_image sampleEnv sampleImage "hi" "ok").calls ∧
    (⟨pyUpper "ok", center_x (resolve_font sampleEnv (sampleImage.width / 10))
        sampleImage.width (pyUpper "ok"),
      bottom_y (resolve_font sampleEnv (sampleImage.width / 10)) sampleImage.height
        (pyUpper "ok"), white⟩ : DrawCall) ∈
      (draw_text_on_image sampleEnv sampleImage "hi" "ok").calls :=
  ⟨(C6_vertical_anchors sampleEnv sampleImage "hi" "ok").1 (by decide),
   (C6_vertical_anchors sampleEnv sampleImage "hi" "ok").2 (by decide)⟩

/-! ### C9: font fallback -/

/-- C9: when loading `impact.ttf` at size `width / 10` raises the
font-lookup error, the renderer resolves the built-in default font and
the render completes, producing exactly the render performed with the
default font. -/
theorem C9_font_fallback (env : FontEnv) (image : Image) (t b : String)
    (h : env.truetype "impact.ttf" (image.width / 10) = none) :
    resolve_font env (image.width / 10) = env.load_default ∧
    draw_text_on_image env image t b = drawWithFont env.load_default image t b := by
  have hr : resolve_font env (image.width / 10) = env.load_default := by
    unfold resolve_font
    rw [h]
  exact ⟨hr, by rw [draw_text_on_image, hr]⟩

/-- C9 witness at a concrete input. -/
theorem C9_font_fallback_witness :
    resolve_font noImpactEnv (sampleImage.width / 10) = noImpactEnv.load_default ∧
    draw_text_on_image noImpactEnv sampleImage "hi" "" =
      drawWithFont noImpactEnv.load_default sampleImage "hi" "" :=
  C9_font_fallback noImpactEnv sampleImage "hi" "" rfl

/-! ### C3: aliasing and mutation, via an explicit reference heap -/

/-- The call `draw_text_on_image(heap[ref], t, b)` with Python object
semantics: `ImageDraw.Draw(image)` draws directly onto the object at
`ref`, and the function returns that same reference (`return image`). -/
def draw_text_on_image_call (env : FontEnv) (heap : Nat → Image) (ref : Nat)
    (t b : String) : (Nat → Image) × Nat :=
  (Function.update heap ref (draw_text_on_image env (heap ref) t b).img, ref)

/-- The app-level call site (app.py line 166):
`draw_text_on_image(image.copy(), top_text, bottom_text)` — a fresh copy
of the object at `origRef` is placed at `copyRef` and the renderer is
called on the copy. -/
def app_meme_call (env : FontEnv) (heap : Nat → Image) (origRef copyRef : Nat)
    (t b : String) : (Nat → Image) × Nat :=
  draw_text_on_image_call env (Function.update heap copyRef (heap origRef)) copyRef t b

/-- A concrete heap for the counterexample: every reference holds the
sample image. -/
def sampleHeap : Nat → Image := fun _ => sampleImage

/-- The white fill draw of `draw_text_with_outline` hits the pixel at the
ink offset of the anchor. -/
theorem outline_fill_pixel (font : Font) (t : String) (x y : Rat) (st : DrawState)
    (p q : Int)
    (hbound : 0 ≤ p ∧ p < (st.img.width : Int) ∧ 0 ≤ q ∧ q < (st.img.height : Int))
    (hi : (p - Rat.floor x, q - Rat.floor y) ∈ font.ink t) :
    (draw_text_with_outline font t x y st).img.pixel p q = white := by
  unfold draw_text_with_outline
  simp only [drawText]
  rw [if_pos ⟨hbound.1, hbound.2.1, hbound.2.2.1, hbound.2.2.2, hi⟩]

/-- The top-slot white fill pixel of a full render with empty bottom
text. -/
theorem drawWithFont_top_fill_pixel (font : Font) (image : Image) (t : String)
    (ht : t ≠ "") (p q : Int)
    (hbound : 0 ≤ p ∧ p < (image.width : Int) ∧ 0 ≤ q ∧ q < (image.height : Int))
    (hi : (p - Rat.floor (((image.width : Rat) - ((text_width font (pyUpper t) : Int) : Rat)) / 2),
           q - Rat.floor (10 : Rat)) ∈ font.ink (pyUpper t)) :
    (drawWithFont font image t "").img.pixel p q = white := by
  simp only [drawWithFont]
  rw [if_neg (by decide : ¬ (("" : String) ≠ "")), if_pos ht]
  exact outline_fill_pixel font (pyUpper t) _ 10 ⟨image, []⟩ p q hbound hi

/-- C3 counterexample: at a concrete input the renderer returns the very
reference it was given (not a distinct new bitmap), and the image object
passed to it has been mutated in place — pixel (13, 10) has turned white
under the fill draw. -/
theorem C3_counterexample :
    (draw_text_on_image_call sampleEnv sampleHeap 0 "hi" "").2 = 0 ∧
    ((draw_text_on_image_call sampleEnv sampleHeap 0 "hi" "").1 0).pixel 13 10 = white ∧
    (sampleHeap 0).pixel 13 10 ≠ white := by
  refine ⟨rfl, ?_, by decide⟩
  have h1 : (draw_text_on_image_call sampleEnv sampleHeap 0 "hi" "").1 0 =
      (draw_text_on_image sampleEnv (sampleHeap 0) "hi" "").img := by
    unfold draw_text_on_image_call
    simp
  rw [h1, draw_text_on_image]
  refine drawWithFont_top_fill_pixel sampleFont sampleImage "hi" (by decide) 13 10
    (by decide) ?_
  have hf : Rat.floor (((sampleImage.width : Rat) -
      ((text_width sampleFont (pyUpper "hi") : Int) : Rat)) / 2) = 13 := by
    have h14 : (text_width sampleFont (pyUpper "hi") : Int) = 14 := by decide
    rw [h14]
    have h13 : ((sampleImage.width : Rat) - ((14 : Int) : Rat)) / 2 = 13 := by
      norm_num [sampleImage]
    rw [h13]
    rfl
  have hf10 : Rat.floor (10 : Rat) = 10 := rfl
  rw [hf, hf10]
  decide

/-- C3 amended: the renderer draws in place on the image object passed to
it and returns that same object; the caller's original image is
nevertheless unchanged because the call site passes a disposable copy. -/
theorem C3_amended (env : FontEnv) (heap : Nat → Image) (origRef copyRef : Nat)
    (t b : String) (h : copyRef ≠ origRef) :
    (app_meme_call env heap origRef copyRef t b).1 origRef = heap origRef ∧
    (app_meme_call env heap origRef copyRef t b).2 = copyRef := by
  unfold app_meme_call draw_text_on_image_call
  refine ⟨?_, rfl⟩
  show Function.update (Function.update heap copyRef (heap origRef)) copyRef
      (draw_text_on_image env (Function.update heap copyRef (heap origRef) copyRef) t b).img
      origRef = heap origRef
  rw [Function.update_noteq (Ne.symm h), Function.update_noteq (Ne.symm h)]

/-- C3 amended witness at a concrete input. -/
theorem C3_amended_witness :
    (app_meme_call sampleEnv sampleHeap 0 1 "hi" "").1 0 = sampleHeap 0 ∧
    (app_meme_call sampleEnv sampleHeap 0 1 "hi" "").2 = 1 :=
  C3_amended sampleEnv sampleHeap 0 1 "hi" "" (by decide)

/-! ### C7: whitespace-only captions draw no glyphs -/

/-- Pointwise equality of bitmaps: same dimensions and same pixels. -/
def ImgEq (a b : Image) : Prop :=
  a.width = b.width ∧ a.height = b.height ∧ ∀ p q : Int, a.pixel p q = b.pixel p q

theorem ImgEq_refl (a : Image) : ImgEq a a :=
  ⟨rfl, rfl, fun _ _ => rfl⟩

theorem ImgEq_trans {a b c : Image} (h1 : ImgEq a b) (h2 : ImgEq b c) : ImgEq a c :=
  ⟨h1.1.trans h2.1, h1.2.1.trans h2.2.1, fun p q => (h1.2.2 p q).trans (h2.2.2 p q)⟩

/-- Upper-casing maps whitespace characters to themselves. -/
theorem Char.toUpper_of_whitespace (c : Char) (h : c.isWhitespace = true) : c.toUpper = c := by
  simp [Char.isWhitespace] at h
  rcases h with ((h | h) | h) | h <;> subst h <;> decide

/-- Upper-casing a whitespace-only string yields a whitespace-only string. -/
theorem pyUpper_whitespace (s : String) (h : s.data.all Char.isWhitespace = true) :
    (pyUpper s).data.all Char.isWhitespace = true := by
  rw [show (pyUpper s).data = s.data.map Char.toUpper from rfl]
  rw [List.all_map]
  rw [List.all_eq_true] at h ⊢
  intro c hc
  have h1 := h c hc
  simpa [Function.comp, Char.toUpper_of_whitespace c h1] using h1

/-- A draw of a glyph run with no ink leaves the bitmap unchanged. -/
theorem drawText_ink_nil (font : Font) (t : String) (x y : Rat) (c : Color) (st : DrawState)
    (h : font.ink t = []) :
    ImgEq (drawText font t x y c st).img st.img := by
  refine ⟨rfl, rfl, fun p q => ?_⟩
  simp [drawText, h]

theorem outline_ink_nil (font : Font) (t : String) (x y : Rat) (st : DrawState)
    (h : font.ink t = []) :
    ImgEq (draw_text_with_outline font t x y st).img st.img := by
  unfold draw_text_with_outline
  exact ImgEq_trans (drawText_ink_nil font t x y white _ h)
    (ImgEq_trans (drawText_ink_nil font t (x + 2) (y + 2) black _ h)
      (ImgEq_trans (drawText_ink_nil font t (x - 2) (y + 2) black _ h)
        (ImgEq_trans (drawText_ink_nil font t (x + 2) (y - 2) black _ h)
          (drawText_ink_nil font t (x - 2) (y - 2) black _ h))))

/-- A draw call applied to pointwise-equal bitmaps produces pointwise-equal
bitmaps. -/
theorem drawText_congr (font : Font) (t : String) (x y : Rat) (c : Color)
    {st1 st2 : DrawState} (h : ImgEq st1.img st2.img) :
    ImgEq (drawText font t x y c st1).img (drawText font t x y c st2).img := by
  obtain ⟨hw, hh, hp⟩ := h
  refine ⟨hw, hh, fun p q => ?_⟩
  simp only [drawText]
  rw [hw, hh]
  by_cases hc : 0 ≤ p ∧ p < (st2.img.width : Int) ∧ 0 ≤ q ∧ q < (st2.img.height : Int) ∧
      (p - Rat.floor x, q - Rat.floor y) ∈ font.ink t
  · rw [if_pos hc, if_pos hc]
  · rw [if_neg hc, if_neg hc]
    exact hp p q

theorem outline_congr (font : Font) (t : String) (x y : Rat) {st1 st2 : DrawState}
    (h : ImgEq st1.img st2.img) :
    ImgEq (draw_text_with_outline font t x y st1).img
      (draw_text_with_outline font t x y st2).img := by
  unfold draw_text_with_outline
  exact drawText_congr font t x y white
    (drawText_congr font t (x + 2) (y + 2) black
      (drawText_congr font t (x - 2) (y + 2) black
        (drawText_congr font t (x + 2) (y - 2) black
          (drawText_congr font t (x - 2) (y - 2) black h))))

/-- Rendering with a whitespace-only top caption (whose glyph run has no
ink) is pixelwise the same as rendering with an empty top caption. -/
theorem drawWithFont_ws_top (font : Font) (image : Image) (t b : String)
    (h : font.ink (pyUpper t) = []) :
    ImgEq (drawWithFont font image t b).img (drawWithFont font image "" b).img := by
  by_cases ht : t = ""
  · subst ht
    exact ImgEq_refl _
  · unfold drawWithFont
    by_cases hb : b = ""
    · subst hb
      simp [ht]
      exact outline_ink_nil font (pyUpper t) _ _ _ h
    · simp [ht, hb]
      exact outline_congr font (pyUpper b) _ _ (outline_ink_nil font (pyUpper t) _ _ _ h)

/-- Rendering with a whitespace-only bottom caption (whose glyph run has
no ink) is pixelwise the same as rendering with an empty bottom
caption. -/
theorem drawWithFont_ws_bottom (font : Font) (image : Image) (t b : String)
    (h : font.ink (pyUpper b) = []) :
    ImgEq (drawWithFont font image t b).img (drawWithFont font image t "").img := by
  by_cases hb : b = ""
  · subst hb
    exact ImgEq_refl _
  · unfold drawWithFont
    by_cases ht : t = ""
    · simp [ht, hb]
      exact outline_ink_nil font (pyUpper b) _ _ _ h
    · simp [ht, hb]
      exact outline_ink_nil font (pyUpper b) _ _ _ h

/-- C7: when a caption slot's string is empty or consists only of
whitespace characters (whose glyphs carry no ink), the rendered output is
pixel-for-pixel what it would be with that slot empty: no glyphs are
drawn for that slot. -/
theorem C7_whitespace_slot_noop (env : FontEnv) (image : Image) (t b : String)
    (hink : ∀ s : String, s.data.all Char.isWhitespace = true →
      (resolve_font env (image.width / 10)).ink s = []) :
    (t.data.all Char.isWhitespace = true →
      ∀ p q : Int, (draw_text_on_image env image t b).img.pixel p q =
        (draw_text_on_image env image "" b).img.pixel p q) ∧
    (b.data.all Char.isWhitespace = true →
      ∀ p q : Int, (draw_text_on_image env image t b).img.pixel p q =
        (draw_text_on_image env image t "").img.pixel p q) := by
  constructor
  · intro hw p q
    exact (drawWithFont_ws_top (resolve_font env (image.width / 10)) image t b
      (hink _ (pyUpper_whitespace t hw))).2.2 p q
  · intro hw p q
    exact (drawWithFont_ws_bottom (resolve_font env (image.width / 10)) image t b
      (hink _ (pyUpper_whitespace b hw))).2.2 p q

/-- C7 witness at a concrete input: a whitespace-only top caption leaves
the probed pixel exactly as an empty top caption does. -/
theorem C7_whitespace_slot_noop_witness :
    (draw_text_on_image sampleEnv sampleImage " " "ok").img.pixel 13 10 =
      (draw_text_on_image sampleEnv sampleImage "" "ok").img.pixel 13 10 :=
  (C7_whitespace_slot_noop sampleEnv sampleImage " " "ok"
    (fun s h => by
      have e : (resolve_font sampleEnv (sampleImage.width / 10)).ink s =
          (if s.data.all Char.isWhitespace = true then ([] : List (Int × Int)) else [(0, 0)]) :=
        rfl
      rw [e, h]
      simp)).1 (by decide) 13 10

/-! ### C10: the caption-fetch collaborator `get_ai_caption`
(app.py lines 93-125) -/

/-- Minimal JSON value model for the response body; `other` stands for
values (numbers, booleans, null) on which the code's subscripting and
membership tests raise. -/
inductive J where
  | str (s : String)
  | arr (xs : List J)
  | obj (fields : List (String × J))
  | other

/-- An HTTP response: status code, and the parsed JSON body — `none` when
`response.json()` raises because the body is not valid JSON. -/
structure HttpResponse where
  status : Nat
  body : Option J

/-- Outcome of `requests.post(api_url, json=payload, timeout=60)`:
a response, a timeout, or another request exception. -/
inductive PostResult where
  | resp (r : HttpResponse)
  | timeout
  | connError

/-- Python `j["key"]`: succeeds only on a dict containing the key;
anything else raises (modelled as `none`). -/
def jGet (j : J) (key : String) : Option J :=
  match j with
  | .obj fields => (fields.find? (fun p => p.1 == key)).map (fun p => p.2)
  | _ => none

/-- Python `j[i]` for an integer index on a list; anything else raises
(modelled as `none`; on a string it would yield a one-character string on
which the subsequent string-key subscript raises, so the eventual outcome
is the same). -/
def jIndex (j : J) (i : Nat) : Option J :=
  match j with
  | .arr xs => xs.get? i
  | _ => none

/-- Contiguous-substring test, modelling Python `in` on strings. -/
def strIn (key s : String) : Bool :=
  (List.range (s.data.length + 1)).any
    (fun i => (s.data.drop i).take key.data.length == key.data)

/-- Python `"key" in j`: key containment for a dict, element equality for
a list, substring test for a string; raises (`none`) otherwise. -/
def pyContains (j : J) (key : String) : Option Bool :=
  match j with
  | .obj fields => some (fields.any (fun p => p.1 == key))
  | .arr xs => some (xs.any (fun x => match x with | .str s => s == key | _ => false))
  | .str s => some (strIn key s)
  | .other => none

/-- Model of `response.raise_for_status()`: raises `HTTPError` exactly
for 4xx and 5xx status codes. -/
def raise_for_status (r : HttpResponse) : Except String Unit :=
  if 400 ≤ r.status ∧ r.status < 600 then Except.error "HTTPError" else Except.ok ()

/-- The subscript chain
`result["candidates"][0]["content"]["parts"][0]["text"]`. -/
def caption_path (result : J) : Option J :=
  (((((jGet result "candidates").bind (fun j => jIndex j 0)).bind
      (fun j => jGet j "content")).bind (fun j => jGet j "parts")).bind
    (fun j => jIndex j 0)).bind (fun j => jGet j "text")

/-- The value of `result[...][...]... ["text"].strip()`: defined only when
the chain lands on a string (`.strip()` on anything else raises). -/
def extracted_caption (result : J) : Option String :=
  match caption_path result with
  | some (.str s) => some s.trim
  | _ => none

/-- Body of the `try:` block of `get_ai_caption`, with exceptions in
flight modelled by `Except.error`.  The returned pair is (caption,
whether `st.error` was shown). -/
def get_ai_caption_try (pr : PostResult) : Except String (String × Bool) :=
  match pr with
  | .timeout => Except.error "Timeout"
  | .connError => Except.error "ConnectionError"
  | .resp r =>
    match raise_for_status r with
    | Except.error e => Except.error e
    | Except.ok _ =>
      match r.body with
      | none => Except.error "JSONDecodeError"
      | some result =>
        match pyContains result "candidates" with
        | none => Except.error "TypeError"
        | some true =>
          match extracted_caption result with
          | some s => Except.ok (s, false)
          | none => Except.error "KeyError"
        | some false => Except.ok ("", true)

/-- Embedding of `get_ai_caption`: the `except Exception` handler turns
any exception into a user-visible error message and an empty returned
caption. -/
def get_ai_caption (pr : PostResult) : String × Bool :=
  match get_ai_caption_try pr with
  | Except.ok v => v
  | Except.error _ => ("", true)

/-- A well-formed response body carrying a caption. -/
def goodBody : J :=
  J.obj [("candidates", J.arr [J.obj [("content", J.obj [("parts",
    J.arr [J.obj [("text", J.str "hi")]])])]])]

/-- C10 counterexample: a 301 response — non-2xx — with a well-formed
body is not turned into an error and an empty caption: `raise_for_status`
raises only for 4xx/5xx, so the code returns the stripped caption with no
error shown. -/
theorem C10_counterexample :
    ¬ (200 ≤ (301 : Nat) ∧ (301 : Nat) < 300) ∧
    get_ai_caption (PostResult.resp ⟨301, some goodBody⟩) = ("hi".trim, false) := by
  exact ⟨by decide, rfl⟩

/-- C10 amended: a 4xx or 5xx response, a timeout, another request
exception, an unparsable body, or a body from which the caption text
cannot be extracted all yield a user-visible error and an empty returned
caption, and no exception escapes `get_ai_caption`. -/
theorem C10_amended (pr : PostResult)
    (h : pr = PostResult.timeout ∨ pr = PostResult.connError ∨
      ∃ r, pr = PostResult.resp r ∧
        ((400 ≤ r.status ∧ r.status < 600) ∨ r.body = none ∨
          ∃ j, r.body = some j ∧ extracted_caption j = none)) :
    get_ai_caption pr = ("", true) := by
  rcases h with h | h | ⟨r, hpr, hcase⟩
  · subst h
    rfl
  · subst h
    rfl
  · subst hpr
    obtain ⟨st, body⟩ := r
    rcases hcase with hss | hnone | ⟨j, hbody, hext⟩
    · have hss' : 400 ≤ st ∧ st < 600 := hss
      simp [get_ai_caption, get_ai_caption_try, raise_for_status, hss']
    · have hb : body = none := hnone
      subst hb
      by_cases hst : 400 ≤ st ∧ st < 600 <;>
        simp [get_ai_caption, get_ai_caption_try, raise_for_status, hst]
    · have hb : body = some j := hbody
      subst hb
      by_cases hst : 400 ≤ st ∧ st < 600
      · simp [get_ai_caption, get_ai_caption_try, raise_for_status, hst]
      · rcases hpc : pyContains j "candidates" with _ | bo
        · simp [get_ai_caption, get_ai_caption_try, raise_for_status, hst, hpc]
        · cases bo
          · simp [get_ai_caption, get_ai_caption_try, raise_for_status, hst, hpc]
          · simp [get_ai_caption, get_ai_caption_try, raise_for_status, hst, hpc, hext]

/-- C10 amended witness at a concrete input. -/
theorem C10_amended_witness :
    get_ai_caption PostResult.timeout = ("", true) :=
  C10_amended PostResult.timeout (Or.inl rfl)
